import Mathlib

/-!
Shallow embedding of the request-handling and data-mapping logic of the
node-task-manager repository:

* `src/server/app.js` — Express + MongoDB backend (handlers for
  GET /api/tasks, GET /api/tasks/:id, POST /api/tasks, PUT /api/tasks/:id,
  DELETE /api/tasks/:id and the document normalizer `transformTaskDocument`),
* `src/unnamed/part_000` — Express + Supabase backend for the same routes,
* `src/client/src/api/tasks.js` — the client fetch layer (`loadTasks`).

JSON / JavaScript values are modelled by the inductive `JsValue`; a JS object
is an association list with unique keys (`Doc`).  Store state is the list of
stored documents / rows; each handler is a pure function from store state and
request data to an HTTP response (and the new store state for mutating
routes).  Driver failures that a claim needs (the insert failure in the POST
handler) are an explicit boolean parameter.
-/

/-- JavaScript/JSON values appearing in the task domain.  `jsOid` is a
MongoDB ObjectId carrying its 24-hex-character string representation;
`jsDate` a timestamp; `jsUndefined` the JS `undefined`. -/
inductive JsValue where
  | jsStr (s : String)
  | jsNum (n : Int)
  | jsBool (b : Bool)
  | jsNull
  | jsUndefined
  | jsOid (hex : String)
  | jsDate (t : Nat)
  deriving DecidableEq, Repr

open JsValue

/-- A JavaScript object, as an association list of field name / value pairs
(JS object keys are unique; `setField` preserves that). -/
abbrev Doc : Type := List (String × JsValue)

/-- Field lookup, `undefined` when the key is absent (JS member access). -/
def getFieldD (d : Doc) (k : String) : JsValue :=
  match d.find? (fun p => p.1 = k) with
  | some p => p.2
  | none => jsUndefined

/-- `obj.k = v`: replace the value in place when the key exists (JS object
keys are unique), append the new key at the end otherwise. -/
def setField (d : Doc) (k : String) (v : JsValue) : Doc :=
  match d with
  | [] => [(k, v)]
  | p :: rest => if p.1 = k then (k, v) :: rest else p :: setField rest k v

/-- Number of fields of `d` named `k` (to state "exactly one `id` field"). -/
def keyCount (d : Doc) (k : String) : Nat :=
  (d.filter (fun p => p.1 = k)).length

/-- JS `.toString()` on a defined value; on an ObjectId it yields the
24-hex-character string. -/
def jsToString : JsValue → String
  | jsStr s => s
  | jsNum n => toString n
  | jsBool b => cond b "true" "false"
  | jsNull => "null"
  | jsUndefined => "undefined"
  | jsOid hex => hex
  | jsDate t => toString t

/-- JS falsiness of a destructured request-body field (`none` = the field was
absent, i.e. `undefined`).  Falsy: `undefined`, `null`, `false`, `0`, `""`. -/
def falsy : Option JsValue → Bool
  | none => true
  | some jsUndefined => true
  | some jsNull => true
  | some (jsBool b) => !b
  | some (jsNum n) => n == 0
  | some (jsStr s) => s == ""
  | some (jsOid _) => false
  | some (jsDate _) => false

/-- `src/server/app.js` lines 32-39: copy the document (`{ ...doc }`), then
set `id` to `doc._id.toString()`; `null`/`undefined` pass through as `null`. -/
def transformTaskDocument (doc : Option Doc) : Option Doc :=
  match doc with
  | none => none
  | some d => some (setField d "id" (jsStr (jsToString (getFieldD d "_id"))))

/-- Heap of JS objects: a reference is an index, allocation appends.  Used to
state that `transformTaskDocument` does not mutate its input object. -/
abbrev Heap : Type := List Doc

/-- `transformTaskDocument` with the object heap explicit: reading the input
object, allocating the spread copy as a fresh object, and performing the
`task.id = ...` assignment on the fresh object only. -/
def transformTaskDocumentH (h : Heap) (doc : Option Nat) : Heap × Option Nat :=
  match doc with
  | none => (h, none)
  | some r =>
    let d := (List.getD h r [])
    let task := d
    let task2 := setField task "id" (jsStr (jsToString (getFieldD d "_id")))
    (List.append h [task2], some (List.length h))

/-- Body of an HTTP JSON response. -/
inductive RespBody where
  | errObj (msg : String)
  | obj (d : Doc)
  | arr (ds : List Doc)
  | msgObj (m : String)
  | jsUndef
  deriving DecidableEq, Repr

/-- An HTTP response: status code and JSON body. -/
structure HttpResponse where
  status : Nat
  body : RespBody
  deriving DecidableEq, Repr

/-- Hex digit test for ObjectId strings. -/
def isHexChar (c : Char) : Bool :=
  c.isDigit || (Char.ofNat 97 ≤ c && c ≤ Char.ofNat 102) ||
    (Char.ofNat 65 ≤ c && c ≤ Char.ofNat 70)

/-- A string accepted by `new ObjectId(s)`: exactly 24 hex characters.
Anything else makes the constructor throw (caught by the handler). -/
def isValidObjectId (s : String) : Bool :=
  s.length == 24 && s.data.all isHexChar

/-- The boolean coercion both backends apply to the `complete` query
parameter: `complete === "true"`. -/
def queryCompleteCoerce (complete : String) : Bool :=
  complete == "true"

/-- The non-null case of `transformTaskDocument`: the spread copy with
`id` set to `_id.toString()`. -/
def transformTaskDocument1 (d : Doc) : Doc :=
  setField d "id" (jsStr (jsToString (getFieldD d "_id")))

/-- Destructured request body for POST / PUT: the three fields the handlers
read; `none` means the field was absent from the JSON body. -/
structure ReqBody where
  title : Option JsValue
  description : Option JsValue
  complete : Option JsValue
  deriving DecidableEq, Repr

/-- `src/server/app.js` lines 42-59 (GET /api/tasks): optional equality
filter on `complete`, then each task is normalized. -/
def getTasks (store : List Doc) (complete : Option String) : HttpResponse :=
  let tasks :=
    match complete with
    | none => store
    | some v => store.filter (fun d => getFieldD d "complete" == jsBool (queryCompleteCoerce v))
  ⟨200, .arr (tasks.map transformTaskDocument1)⟩

/-- `src/server/app.js` lines 62-79 (GET /api/tasks/:id): `new ObjectId(id)`
throws on a malformed id, landing in the catch branch (500, "Invalid ID
format"); otherwise `findOne` by `_id`, 404 when null, else the normalized
task. -/
def getTaskById (store : List Doc) (id : String) : HttpResponse :=
  if !isValidObjectId id then
    ⟨500, .errObj "Invalid ID format"⟩
  else
    match store.find? (fun d => getFieldD d "_id" == jsOid id) with
    | none => ⟨404, .errObj ("Task with ID " ++ id ++ " not found")⟩
    | some task => ⟨200, .obj (transformTaskDocument1 task)⟩

/-- One piece of a JS template literal: literal text or a variable
reference. -/
inductive TemplatePart where
  | lit (s : String)
  | varRef (name : String)
  deriving DecidableEq, Repr

/-- Variable lookup in a lexical environment. -/
def lookupVar (env : List (String × JsValue)) (n : String) : Option JsValue :=
  (env.find? (fun p => p.1 = n)).map Prod.snd

/-- Evaluate a template literal; referencing a name not bound in the
environment throws a ReferenceError, modelled as `.error name`. -/
def evalTemplate (env : List (String × JsValue)) : List TemplatePart → Except String String
  | [] => .ok ""
  | .lit s :: rest => (evalTemplate env rest).map (fun t => s ++ t)
  | .varRef n :: rest =>
    match lookupVar env n with
    | none => .error n
    | some v => (evalTemplate env rest).map (fun t => jsToString v ++ t)

/-- Names bound in the catch block of POST /api/tasks in
`src/server/app.js`: the module-level declarations, the handler parameters
`req`/`res` and the catch parameter `error`.  The `const` declarations inside
the try block (`title`, `description`, `complete`, `task`, `result`,
`insertedTask`) are block-scoped to the try block and not visible here.
The bound values are irrelevant to the claims (only the names matter), so
each is a placeholder. -/
def postCatchEnv : List (String × JsValue) :=
  [("__filename", jsUndefined), ("__dirname", jsUndefined), ("app", jsUndefined),
   ("port", jsUndefined), ("uri", jsUndefined), ("client", jsUndefined),
   ("dbName", jsUndefined), ("db", jsUndefined), ("taskCollection", jsUndefined),
   ("transformTaskDocument", jsUndefined), ("startServer", jsUndefined),
   ("req", jsUndefined), ("res", jsUndefined), ("error", jsUndefined)]

/-- The template literal of `src/server/app.js` line 101. -/
def postCatchMessage : List TemplatePart :=
  [.lit "Task with ID ", .varRef "id", .lit " not found"]

/-- Result of running a handler: a response, or an exception that escaped
the handler itself (here: a ReferenceError while building a response). -/
inductive HandlerResult where
  | ok (r : HttpResponse)
  | thrown (refName : String)
  deriving DecidableEq, Repr

/-- `src/server/app.js` lines 82-103 (POST /api/tasks).  `insertOk` is the
outcome of `insertOne`: when it rejects, control reaches the catch branch,
whose response body is the template of line 101 evaluated in the catch
scope.  `newOid` is the ObjectId the store generates, `now` the current
time. -/
def postTask (store : List Doc) (newOid : String) (now : Nat) (insertOk : Bool)
    (body : ReqBody) : HandlerResult × List Doc :=
  if falsy body.title then
    (.ok ⟨404, .errObj "Title is required"⟩, store)
  else
    let task : Doc :=
      [("title", body.title.getD jsUndefined),
       ("description", if falsy body.description then jsStr "" else body.description.getD jsUndefined),
       ("complete", if falsy body.complete then jsBool false else body.complete.getD jsUndefined),
       ("createdAt", jsDate now),
       ("updatedAt", jsDate now)]
    if insertOk then
      let insertedTask : Doc := ("_id", jsOid newOid) :: task
      (.ok ⟨201, .obj insertedTask⟩, store ++ [insertedTask])
    else
      match evalTemplate postCatchEnv postCatchMessage with
      | .error n => (.thrown n, store)
      | .ok msg => (.ok ⟨404, .errObj msg⟩, store)

/-- The document the Mongo POST handler inserts for a request body carrying
only a title: defaulted `description` and `complete`, both timestamps, and
the driver-generated `_id` in front (used to state facts about concrete
POST responses). -/
def mongoInsertedDoc (oid : String) (now : Nat) (t : JsValue) : Doc :=
  [("_id", jsOid oid), ("title", t), ("description", jsStr ""),
   ("complete", jsBool false), ("createdAt", jsDate now), ("updatedAt", jsDate now)]

/-- The `error.message` of a BSONError from `new ObjectId` on a malformed
string, surfaced by the PUT and DELETE catch branches. -/
def bsonInvalidIdMessage : String :=
  "input must be a 24 character hex string, 12 byte Uint8Array, or an integer"

/-- The `$set` document of `src/server/app.js` lines 113-115 applied to a
stored document: `title`, `description`, `complete` from the destructured
body and a fresh `updatedAt`.  A field absent from the body is `undefined`,
which the driver serializes as null (`ignoreUndefined` is off by
default). -/
def putSetFields (body : ReqBody) (now : Nat) (d : Doc) : Doc :=
  setField (setField (setField (setField d
    "title" (body.title.getD jsNull))
    "description" (body.description.getD jsNull))
    "complete" (body.complete.getD jsNull))
    "updatedAt" (jsDate now)

/-- `src/server/app.js` lines 106-132 (PUT /api/tasks/:id): malformed id →
`new ObjectId` throws → catch → 500 with the error message; otherwise
`findOneAndUpdate` by `_id` returning the post-update document — null gives
404, else the updated document is normalized and returned with 200. -/
def putTask (store : List Doc) (id : String) (now : Nat) (body : ReqBody) :
    HttpResponse × List Doc :=
  if !isValidObjectId id then
    (⟨500, .errObj bsonInvalidIdMessage⟩, store)
  else
    match store.find? (fun d => getFieldD d "_id" == jsOid id) with
    | none => (⟨404, .errObj ("Task with ID " ++ id ++ " not found")⟩, store)
    | some t =>
      let newStore := store.map (fun d => if getFieldD d "_id" == jsOid id then putSetFields body now d else d)
      (⟨200, .obj (transformTaskDocument1 (putSetFields body now t))⟩, newStore)

/-- `src/server/app.js` lines 135-150 (DELETE /api/tasks/:id): malformed id
→ catch → 500; otherwise `deleteOne` by `_id` — `deletedCount === 0` gives
404, else 200 with the confirmation message. -/
def deleteTask (store : List Doc) (id : String) : HttpResponse × List Doc :=
  if !isValidObjectId id then
    (⟨500, .errObj bsonInvalidIdMessage⟩, store)
  else
    if store.any (fun d => getFieldD d "_id" == jsOid id) then
      (⟨200, .msgObj "Task deleted successfully"⟩,
       store.eraseP (fun d => getFieldD d "_id" == jsOid id))
    else
      (⟨404, .errObj ("Task with ID " ++ id ++ " not found")⟩, store)

/-- A row of the Supabase `tasks` table (`src/unnamed/part_000`).  The
primary key is the table's integer serial; `description` is `none` when the
column is SQL NULL (its default when an insert omits it). -/
structure SupaRow where
  id : Int
  title : JsValue
  description : Option JsValue
  complete : JsValue
  deriving DecidableEq, Repr

/-- JSON shape of a Supabase row as returned to the client (NULL becomes
JSON null). -/
def rowToDoc (r : SupaRow) : Doc :=
  [("id", jsNum r.id), ("title", r.title),
   ("description", r.description.getD jsNull), ("complete", r.complete)]

/-- PostgREST error message when a non-integer id string reaches the integer
key column. -/
def supaInvalidIntMessage : String :=
  "invalid input syntax for type bigint"

/-- Decimal digit accumulator for `pgParseInt`. -/
def pgParseDigits : List Char → Nat → Option Nat
  | [], acc => some acc
  | c :: rest, acc =>
    if c.isDigit then pgParseDigits rest (acc * 10 + (c.toNat - 48)) else none

/-- Postgres parsing of an `:id` path segment destined for the integer key
column: an optional minus sign followed by at least one decimal digit;
anything else raises the invalid-input error. -/
def pgParseInt (s : String) : Option Int :=
  match s.data with
  | [] => none
  | c :: rest =>
    if c = Char.ofNat 45 then
      match rest with
      | [] => none
      | _ => (pgParseDigits rest 0).map (fun n => -(n : Int))
    else
      (pgParseDigits (c :: rest) 0).map (fun n => (n : Int))

/-- `src/unnamed/part_000` lines 28-43 (GET /api/tasks): same optional
`complete === "true"` filter; rows are returned raw (no normalizer). -/
def supaGetTasks (store : List SupaRow) (complete : Option String) : HttpResponse :=
  let rows :=
    match complete with
    | none => store
    | some v => store.filter (fun r => r.complete == jsBool (queryCompleteCoerce v))
  ⟨200, .arr (rows.map rowToDoc)⟩

/-- `src/unnamed/part_000` lines 59-73 (POST /api/tasks): same falsy-title
check; the insert payload is `title` and `description` passed through
(`undefined` is dropped from the JSON payload, so an omitted description
leaves the column at its NULL default) and `complete || false`; success is
201 with the inserted row, raw. -/
def supaPostTask (store : List SupaRow) (newId : Int) (body : ReqBody) :
    HttpResponse × List SupaRow :=
  if falsy body.title then
    (⟨404, .errObj "Title is required"⟩, store)
  else
    let row : SupaRow :=
      { id := newId,
        title := body.title.getD jsUndefined,
        description := body.description,
        complete := if falsy body.complete then jsBool false else body.complete.getD jsUndefined }
    (⟨201, .obj (rowToDoc row)⟩, store ++ [row])

/-- The update payload of `src/unnamed/part_000` line 81 applied to a row:
only the body fields that are present are sent (`undefined` is dropped from
the JSON payload), so omitted columns keep their stored values; no
`updatedAt` column is touched. -/
def supaUpdateRow (body : ReqBody) (r : SupaRow) : SupaRow :=
  { r with
    title := body.title.getD r.title,
    description := match body.description with
      | some v => some v
      | none => r.description,
    complete := body.complete.getD r.complete }

/-- `src/unnamed/part_000` lines 75-89 (PUT /api/tasks/:id): `.eq("id", id)`
on a non-integer string is a Postgres error → 500; otherwise matching rows
receive `supaUpdateRow` and the response is `data[0]` — `undefined` (an
empty 200) when no row matched. -/
def supaPutTask (store : List SupaRow) (idStr : String) (body : ReqBody) :
    HttpResponse × List SupaRow :=
  match pgParseInt idStr with
  | none => (⟨500, .errObj supaInvalidIntMessage⟩, store)
  | some n =>
    let updated := store.map (fun r => if r.id == n then supaUpdateRow body r else r)
    match (updated.filter (fun r => r.id == n)).map rowToDoc with
    | [] => (⟨200, .jsUndef⟩, updated)
    | d :: _ => (⟨200, .obj d⟩, updated)

/-- `src/unnamed/part_000` lines 91-100 (DELETE /api/tasks/:id): a delete
matching zero rows is not an error for the store, so the only failure is a
malformed (non-integer) id → 500; every other request answers 200 with the
confirmation message, whether or not a row was deleted. -/
def supaDeleteTask (store : List SupaRow) (idStr : String) :
    HttpResponse × List SupaRow :=
  match pgParseInt idStr with
  | none => (⟨500, .errObj supaInvalidIntMessage⟩, store)
  | some n =>
    (⟨200, .msgObj "Task deleted successfully"⟩,
     store.filter (fun r => !(r.id == n)))

/-- Outcome of the `fetch` call in the client's `loadTasks`
(`src/client/src/api/tasks.js` lines 6-33): the promise rejects (network
failure), or a response arrives with its `ok` flag, status, and the result
of `response.json()` (`.error` when the body is not valid JSON). -/
inductive FetchOutcome where
  | netErr
  | resp (ok : Bool) (status : Nat) (body : Except String (List Doc))
  deriving Repr

/-- The try block of `loadTasks`: a non-ok response or a JSON parse failure
throws; a parsed body of an ok response is returned. -/
def loadTasksTry (f : FetchOutcome) : Except String (List Doc) :=
  match f with
  | .netErr => .error "fetch failed"
  | .resp ok status body =>
    if !ok then .error ("Failed to fetch tasks: " ++ toString status)
    else body

/-- `src/client/src/api/tasks.js` lines 6-33 (`loadTasks`): the catch block
turns every failure of the try block into an empty array.  (The endpoint
construction and console logging of the source have no effect on the
returned value and are omitted.) -/
def loadTasks (f : FetchOutcome) : List Doc :=
  match loadTasksTry f with
  | .ok data => data
  | .error _ => []

/-- Setting a field makes that field's value readable back. -/
theorem getFieldD_setField_same (d : Doc) (k : String) (v : JsValue) :
    getFieldD (setField d k v) k = v := by
  induction d with
  | nil => simp [setField, getFieldD]
  | cons p rest ih =>
    by_cases h : p.1 = k
    · simp [setField, h, getFieldD]
    · simpa [setField, h, getFieldD] using ih

/-- Setting one field leaves every other field unchanged. -/
theorem getFieldD_setField_ne (d : Doc) (k k' : String) (v : JsValue)
    (h : k ≠ k') : getFieldD (setField d k' v) k = getFieldD d k := by
  induction d with
  | nil => simp [setField, getFieldD, Ne.symm h]
  | cons p rest ih =>
    by_cases hp : p.1 = k'
    · simp [setField, hp, getFieldD, Ne.symm h, List.find?_cons]
    · by_cases hk : p.1 = k
      · simp [setField, hp, getFieldD, hk, h]
      · simpa [setField, hp, getFieldD, hk] using ih

/-- The catch-scope template of the POST handler evaluates to a
ReferenceError on the name `id`. -/
theorem evalTemplate_postCatch :
    evalTemplate postCatchEnv postCatchMessage = .error "id" := rfl

/-- Claim C4: a POST /api/tasks body whose `title` is missing or the empty
string creates no record on either backend and is answered 404 (a 4xx) with
the body error "Title is required". -/
theorem post_missing_title_rejected (storeM : List Doc) (storeS : List SupaRow)
    (oid : String) (now : Nat) (insertOk : Bool) (newId : Int) (body : ReqBody)
    (h : body.title = none ∨ body.title = some (jsStr "")) :
    postTask storeM oid now insertOk body =
      (.ok ⟨404, .errObj "Title is required"⟩, storeM) ∧
    supaPostTask storeS newId body =
      (⟨404, .errObj "Title is required"⟩, storeS) ∧
    400 ≤ 404 ∧ 404 < 500 := by
  have hf : falsy body.title = true := by
    rcases h with h | h <;> simp [h, falsy]
  exact ⟨by simp [postTask, hf], by simp [supaPostTask, hf], by decide, by decide⟩

/-- Witness for C4 at a concrete empty-title request. -/
theorem post_missing_title_rejected_witness :
    postTask [] "65f000000000000000000001" 0 true ⟨some (jsStr ""), none, none⟩ =
      (.ok ⟨404, .errObj "Title is required"⟩, []) ∧
    supaPostTask [] 1 ⟨some (jsStr ""), none, none⟩ =
      (⟨404, .errObj "Title is required"⟩, []) ∧
    400 ≤ 404 ∧ 404 < 500 :=
  post_missing_title_rejected [] [] "65f000000000000000000001" 0 true 1
    ⟨some (jsStr ""), none, none⟩ (Or.inr rfl)

/-- Claim C5: with the `complete` query parameter absent, GET /api/tasks
applies no filter on either backend; with it present, the filter compares
against `complete === "true"`, which is true exactly for the literal string
"true" and false for everything else, including "false". -/
theorem getTasks_complete_filter_spec :
    (∀ storeM : List Doc,
      getTasks storeM none = ⟨200, .arr (storeM.map transformTaskDocument1)⟩) ∧
    (∀ storeS : List SupaRow,
      supaGetTasks storeS none = ⟨200, .arr (storeS.map rowToDoc)⟩) ∧
    (∀ (storeM : List Doc) (v : String),
      getTasks storeM (some v) = ⟨200, .arr ((storeM.filter
        (fun d => getFieldD d "complete" == jsBool (queryCompleteCoerce v))).map
          transformTaskDocument1)⟩) ∧
    (∀ (storeS : List SupaRow) (v : String),
      supaGetTasks storeS (some v) = ⟨200, .arr ((storeS.filter
        (fun r => r.complete == jsBool (queryCompleteCoerce v))).map rowToDoc)⟩) ∧
    (∀ v : String, queryCompleteCoerce v = true ↔ v = "true") ∧
    queryCompleteCoerce "false" = false := by
  refine ⟨fun s => rfl, fun s => rfl, fun s v => rfl, fun s v => rfl,
    fun v => ?_, by decide⟩
  simp [queryCompleteCoerce]

/-- Claim C8: any failure of the client list load — network error, non-ok
response, or JSON parse error — yields the empty array, and every error of
the try block is caught (the function never propagates an error). -/
theorem loadTasks_failure_yields_empty (f : FetchOutcome)
    (h : f = .netErr ∨ (∃ s b, f = .resp false s b) ∨
      (∃ s e, f = .resp true s (.error e))) :
    loadTasks f = [] ∧
    (∀ (g : FetchOutcome) (e : String), loadTasksTry g = .error e → loadTasks g = []) := by
  constructor
  · rcases h with h | ⟨s, b, h⟩ | ⟨s, e, h⟩ <;> subst h <;> simp [loadTasks, loadTasksTry]
  · intro g e hg
    simp [loadTasks, hg]

/-- Witness for C8 at a concrete failing fetch. -/
theorem loadTasks_failure_yields_empty_witness :
    loadTasks FetchOutcome.netErr = [] :=
  (loadTasks_failure_yields_empty .netErr (Or.inl rfl)).1

/-- Claim C9: the normalizer passes `null` through, and on a real document
it allocates a fresh object (the spread copy) and only mutates that copy:
the input object's heap cell is unchanged in every field. -/
theorem transformTaskDocument_no_mutation (h : Heap) (r : Nat) (hr : r < h.length) :
    transformTaskDocument none = none ∧
    transformTaskDocumentH h none = (h, none) ∧
    (transformTaskDocumentH h (some r)).1.getD r [] = h.getD r [] ∧
    (transformTaskDocumentH h (some r)).2 = some h.length ∧
    h.length ≠ r ∧
    (transformTaskDocumentH h (some r)).1.getD h.length [] =
      transformTaskDocument1 (h.getD r []) := by
  refine ⟨rfl, rfl, ?_, rfl, ne_of_gt hr, ?_⟩
  · simpa [transformTaskDocumentH] using List.getD_append h _ [] r hr
  · simp [transformTaskDocumentH, transformTaskDocument1,
      List.getD_append_right h _ [] h.length le_rfl]

/-- Witness for C9 on a one-object heap. -/
theorem transformTaskDocument_no_mutation_witness :
    (transformTaskDocumentH [[("_id", jsOid "65f000000000000000000001")]] (some 0)).1.getD 0 [] =
      [[("_id", jsOid "65f000000000000000000001")]].getD 0 [] :=
  (transformTaskDocument_no_mutation [[("_id", jsOid "65f000000000000000000001")]] 0
    (by decide)).2.2.1

/-- Claim C10: when the insert of a valid-title POST fails, the catch branch
builds its message from the variable `id`, which is referenced by the
template but bound nowhere in the catch scope, so the handler throws a
ReferenceError instead of producing the intended 404 body. -/
theorem postTask_catch_unbound_id (store : List Doc) (oid : String)
    (now : Nat) (body : ReqBody) (h : falsy body.title = false) :
    TemplatePart.varRef "id" ∈ postCatchMessage ∧
    lookupVar postCatchEnv "id" = none ∧
    postTask store oid now false body = (.thrown "id", store) := by
  refine ⟨by decide, by decide, ?_⟩
  simp [postTask, h, evalTemplate_postCatch]

/-- Witness for C10 at a concrete valid-title request. -/
theorem postTask_catch_unbound_id_witness :
    TemplatePart.varRef "id" ∈ postCatchMessage ∧
    lookupVar postCatchEnv "id" = none ∧
    postTask [] "65f000000000000000000001" 0 false
      ⟨some (jsStr "Buy milk"), none, none⟩ =
      (.thrown "id", []) :=
  postTask_catch_unbound_id [] "65f000000000000000000001" 0
    ⟨some (jsStr "Buy milk"), none, none⟩ (by decide)

/-- Claim C1: evaluation of a successful POST /api/tasks at a concrete
request (title "Buy milk") on the Mongo backend: the 201 response carries
the raw store document, which has no `id` field at all (its key is the raw
`_id`); the normalizer, had it been applied as in the GET and PUT handlers,
would have produced exactly one string `id`. -/
theorem postTask_response_lacks_id_field :
    postTask [] "65f000000000000000000001" 0 true ⟨some (jsStr "Buy milk"), none, none⟩ =
      (.ok ⟨201, .obj (mongoInsertedDoc "65f000000000000000000001" 0 (jsStr "Buy milk"))⟩,
       [mongoInsertedDoc "65f000000000000000000001" 0 (jsStr "Buy milk")]) ∧
    keyCount (mongoInsertedDoc "65f000000000000000000001" 0 (jsStr "Buy milk")) "id" = 0 ∧
    keyCount (mongoInsertedDoc "65f000000000000000000001" 0 (jsStr "Buy milk")) "_id" = 1 ∧
    keyCount (transformTaskDocument1
      (mongoInsertedDoc "65f000000000000000000001" 0 (jsStr "Buy milk"))) "id" = 1 ∧
    getFieldD (transformTaskDocument1
      (mongoInsertedDoc "65f000000000000000000001" 0 (jsStr "Buy milk"))) "id" =
      jsStr "65f000000000000000000001" := by
  decide

/-- Claim C2, counterexample: GET /api/tasks/:id with the malformed id
"abc" answers 500 (with "Invalid ID format"), not a 404. -/
theorem getTaskById_malformed_id_500 :
    getTaskById [] "abc" = ⟨500, .errObj "Invalid ID format"⟩ ∧
    (getTaskById [] "abc").status ≠ 404 := by
  decide

/-- Claim C2, amended: on the Mongo backend a malformed id is answered 500
with the distinct body "Invalid ID format" (never 404), while a well-formed
id matching nothing is answered 404 with the not-found message. -/
theorem getTaskById_error_spec (store : List Doc) (id : String) :
    (isValidObjectId id = false →
      getTaskById store id = ⟨500, .errObj "Invalid ID format"⟩) ∧
    (isValidObjectId id = true →
      store.find? (fun d => getFieldD d "_id" == jsOid id) = none →
      getTaskById store id = ⟨404, .errObj ("Task with ID " ++ id ++ " not found")⟩) ∧
    "Invalid ID format" ≠ "Task with ID " ++ id ++ " not found" := by
  refine ⟨fun h => by simp [getTaskById, h], fun h hf => by simp [getTaskById, h, hf], ?_⟩
  intro he
  have hlen := congrArg String.length he
  simp only [String.length_append] at hlen
  have h1 : ("Invalid ID format").length = 17 := by decide
  have h2 : ("Task with ID ").length = 13 := by decide
  have h3 : (" not found").length = 10 := by decide
  rw [h1, h2, h3] at hlen
  omega

/-- Witness for the amended C2 on a well-formed unknown id. -/
theorem getTaskById_error_spec_witness :
    getTaskById [] "65f000000000000000000001" =
      ⟨404, .errObj ("Task with ID " ++ "65f000000000000000000001" ++ " not found")⟩ :=
  (getTaskById_error_spec [] "65f000000000000000000001").2.1 (by decide) (by decide)

/-- Claim C3, counterexample: on the Supabase backend, DELETE /api/tasks/1
against a store holding only the row with id 2 deletes nothing yet answers
200 with the confirmation message. -/
theorem supaDeleteTask_200_nothing_deleted :
    supaDeleteTask [⟨2, jsStr "other", none, jsBool false⟩] "1" =
      (⟨200, .msgObj "Task deleted successfully"⟩,
       [⟨2, jsStr "other", none, jsBool false⟩]) := by
  decide

/-- Claim C3, amended: on the Mongo backend a well-formed id answers 200
with the confirmation exactly when a record matched and 404 otherwise, but a
malformed id answers 500; on the Supabase backend every delete whose id
parses answers 200 with the confirmation whether or not any row matched. -/
theorem deleteTask_status_spec (storeM : List Doc) (id : String)
    (storeS : List SupaRow) (idStr : String) (n : Int) :
    (isValidObjectId id = true →
      storeM.any (fun d => getFieldD d "_id" == jsOid id) = true →
      deleteTask storeM id = (⟨200, .msgObj "Task deleted successfully"⟩,
        storeM.eraseP (fun d => getFieldD d "_id" == jsOid id))) ∧
    (isValidObjectId id = true →
      storeM.any (fun d => getFieldD d "_id" == jsOid id) = false →
      deleteTask storeM id =
        (⟨404, .errObj ("Task with ID " ++ id ++ " not found")⟩, storeM)) ∧
    (isValidObjectId id = false →
      deleteTask storeM id = (⟨500, .errObj bsonInvalidIdMessage⟩, storeM)) ∧
    (pgParseInt idStr = some n →
      supaDeleteTask storeS idStr = (⟨200, .msgObj "Task deleted successfully"⟩,
        storeS.filter (fun r => !(r.id == n)))) := by
  refine ⟨fun h ha => ?_, fun h ha => ?_, fun h => ?_, fun h => ?_⟩
  · simp [deleteTask, h, ha]
  · simp [deleteTask, h, ha]
  · simp [deleteTask, h]
  · simp [supaDeleteTask, h]

/-- Witness for the amended C3: a deletion that does match a record. -/
theorem deleteTask_status_spec_witness :
    deleteTask [[("_id", jsOid "65f000000000000000000001")]] "65f000000000000000000001" =
      (⟨200, .msgObj "Task deleted successfully"⟩,
       List.eraseP (fun d => getFieldD d "_id" == jsOid "65f000000000000000000001")
         [[("_id", jsOid "65f000000000000000000001")]]) :=
  (deleteTask_status_spec [[("_id", jsOid "65f000000000000000000001")]]
    "65f000000000000000000001" [] "1" 1).1 (by decide) (by decide)

/-- Claim C6, counterexample: a Supabase POST with title "Buy milk" and no
description stores NULL for `description` (the column default; the handler
sends no value), not the empty string, and the 201 response shows that
null. -/
theorem supaPostTask_description_not_defaulted :
    supaPostTask [] 1 ⟨some (jsStr "Buy milk"), none, none⟩ =
      (⟨201, .obj [("id", jsNum 1), ("title", jsStr "Buy milk"),
        ("description", jsNull), ("complete", jsBool false)]⟩,
       [⟨1, jsStr "Buy milk", none, jsBool false⟩]) ∧
    getFieldD [("id", jsNum 1), ("title", jsStr "Buy milk"),
      ("description", jsNull), ("complete", jsBool false)] "description" ≠ jsStr "" := by
  decide

/-- Claim C6, amended: for a truthy title with description and complete
omitted, the Mongo backend stores `description` defaulted to "" and
`complete` defaulted to false and answers 201 with the created record
(under its raw `_id` key); the Supabase backend also defaults `complete` to
false and answers 201 with the created row including its generated id, but
leaves the omitted `description` unset (NULL), not the empty string. -/
theorem postTask_defaults_spec (storeM : List Doc) (oid : String) (now : Nat)
    (storeS : List SupaRow) (newId : Int) (t : JsValue)
    (h : falsy (some t) = false) :
    postTask storeM oid now true ⟨some t, none, none⟩ =
      (.ok ⟨201, .obj (mongoInsertedDoc oid now t)⟩,
       storeM ++ [mongoInsertedDoc oid now t]) ∧
    getFieldD (mongoInsertedDoc oid now t) "description" = jsStr "" ∧
    getFieldD (mongoInsertedDoc oid now t) "complete" = jsBool false ∧
    supaPostTask storeS newId ⟨some t, none, none⟩ =
      (⟨201, .obj (rowToDoc ⟨newId, t, none, jsBool false⟩)⟩,
       storeS ++ [⟨newId, t, none, jsBool false⟩]) := by
  have hd : falsy none = true := rfl
  refine ⟨?_, by simp [mongoInsertedDoc, getFieldD], by simp [mongoInsertedDoc, getFieldD], ?_⟩
  · simp [postTask, h, hd, mongoInsertedDoc]
  · simp [supaPostTask, h, hd]

/-- Witness for the amended C6 at a concrete request. -/
theorem postTask_defaults_spec_witness :
    postTask [] "65f000000000000000000001" 7 true ⟨some (jsStr "Buy milk"), none, none⟩ =
      (.ok ⟨201, .obj (mongoInsertedDoc "65f000000000000000000001" 7 (jsStr "Buy milk"))⟩,
       [] ++ [mongoInsertedDoc "65f000000000000000000001" 7 (jsStr "Buy milk")]) ∧
    getFieldD (mongoInsertedDoc "65f000000000000000000001" 7 (jsStr "Buy milk"))
      "description" = jsStr "" ∧
    getFieldD (mongoInsertedDoc "65f000000000000000000001" 7 (jsStr "Buy milk"))
      "complete" = jsBool false ∧
    supaPostTask [] 5 ⟨some (jsStr "Buy milk"), none, none⟩ =
      (⟨201, .obj (rowToDoc ⟨5, jsStr "Buy milk", none, jsBool false⟩)⟩,
       [] ++ [⟨5, jsStr "Buy milk", none, jsBool false⟩]) :=
  postTask_defaults_spec [] "65f000000000000000000001" 7 [] 5 (jsStr "Buy milk") (by decide)

/-- Claim C7, counterexample: PUT /api/tasks/abc (malformed id) on the Mongo
backend answers 500 with the BSONError message, not 404. -/
theorem putTask_malformed_id_500 :
    putTask [] "abc" 0 ⟨none, none, none⟩ = (⟨500, .errObj bsonInvalidIdMessage⟩, []) ∧
    (putTask [] "abc" 0 ⟨none, none, none⟩).1.status ≠ 404 := by
  decide

/-- Claim C7, amended: on the Mongo backend, PUT on an existing id
overwrites `title`, `description` and `complete` with exactly the body
values (an omitted field becomes null), refreshes `updatedAt`, and answers
200 with the updated, normalized task; a well-formed unknown id answers 404,
but a malformed id answers 500.  The Supabase backend differs: a present
body field overwrites but an omitted one keeps the stored value, no
`updatedAt` is touched, a non-integer id answers 500, and an id matching no
row answers 200 with an undefined body, never 404. -/
theorem putTask_update_spec (store : List Doc) (id : String) (now : Nat)
    (body : ReqBody) (t : Doc) (storeS : List SupaRow) (idStr : String)
    (n : Int) (r : SupaRow) :
    (isValidObjectId id = false →
      putTask store id now body = (⟨500, .errObj bsonInvalidIdMessage⟩, store)) ∧
    (isValidObjectId id = true →
      store.find? (fun d => getFieldD d "_id" == jsOid id) = none →
      putTask store id now body =
        (⟨404, .errObj ("Task with ID " ++ id ++ " not found")⟩, store)) ∧
    (isValidObjectId id = true →
      store.find? (fun d => getFieldD d "_id" == jsOid id) = some t →
      putTask store id now body =
        (⟨200, .obj (transformTaskDocument1 (putSetFields body now t))⟩,
         store.map (fun d => if getFieldD d "_id" == jsOid id then putSetFields body now d else d))) ∧
    getFieldD (putSetFields body now t) "title" = body.title.getD jsNull ∧
    getFieldD (putSetFields body now t) "description" = body.description.getD jsNull ∧
    getFieldD (putSetFields body now t) "complete" = body.complete.getD jsNull ∧
    getFieldD (putSetFields body now t) "updatedAt" = jsDate now ∧
    (pgParseInt idStr = none →
      supaPutTask storeS idStr body = (⟨500, .errObj supaInvalidIntMessage⟩, storeS)) ∧
    (pgParseInt idStr = some n →
      (storeS.map (fun r => if r.id == n then supaUpdateRow body r else r)).filter
        (fun r => r.id == n) = [] →
      supaPutTask storeS idStr body = (⟨200, .jsUndef⟩,
        storeS.map (fun r => if r.id == n then supaUpdateRow body r else r))) ∧
    (supaUpdateRow body r).title = body.title.getD r.title ∧
    (supaUpdateRow body r).complete = body.complete.getD r.complete ∧
    (body.description = none → (supaUpdateRow body r).description = r.description) := by
  refine ⟨fun h => by simp [putTask, h], fun h hf => by simp [putTask, h, hf],
    fun h hf => by simp [putTask, h, hf], ?_, ?_, ?_, ?_,
    fun h => by simp [supaPutTask, h],
    fun h hf => by unfold supaPutTask; rw [h]; dsimp only; rw [hf]; rfl,
    rfl, rfl, fun h => by simp [supaUpdateRow, h]⟩
  · simp only [putSetFields]
    rw [getFieldD_setField_ne _ _ _ _ (by decide),
      getFieldD_setField_ne _ _ _ _ (by decide),
      getFieldD_setField_ne _ _ _ _ (by decide), getFieldD_setField_same]
  · simp only [putSetFields]
    rw [getFieldD_setField_ne _ _ _ _ (by decide),
      getFieldD_setField_ne _ _ _ _ (by decide), getFieldD_setField_same]
  · simp only [putSetFields]
    rw [getFieldD_setField_ne _ _ _ _ (by decide), getFieldD_setField_same]
  · simp only [putSetFields]
    rw [getFieldD_setField_same]

/-- Witness for the amended C7: a PUT that hits an existing record. -/
theorem putTask_update_spec_witness :
    putTask [[("_id", jsOid "65f000000000000000000001"), ("title", jsStr "Old")]]
      "65f000000000000000000001" 9
      ⟨some (jsStr "New"), some (jsStr "Desc"), some (jsBool true)⟩ =
      (⟨200, .obj (transformTaskDocument1 (putSetFields
        ⟨some (jsStr "New"), some (jsStr "Desc"), some (jsBool true)⟩ 9
        [("_id", jsOid "65f000000000000000000001"), ("title", jsStr "Old")]))⟩,
       [[("_id", jsOid "65f000000000000000000001"), ("title", jsStr "Old")]].map
         (fun d => if getFieldD d "_id" == jsOid "65f000000000000000000001"
           then putSetFields ⟨some (jsStr "New"), some (jsStr "Desc"), some (jsBool true)⟩ 9 d
           else d)) :=
  (putTask_update_spec _ _ _ _ _ [] "1" 1 ⟨1, jsStr "x", none, jsBool false⟩).2.2.1
    (by decide) (by decide)
